import Mathlib

/-!
Shallow embedding of the checkWorkflowFailures GitHub action
(src/index.ts): the failure-window evaluation performed by
`checkWorkflowStatus` over workflow run records, and the input parsing
performed by `getParsedInput`.

Timestamps and durations are modelled with exact rationals; JS NaN is
modelled explicitly by the `JsNum` type, since `parseFloat` of a
non-numeric string yields NaN and every `<=` comparison against NaN is
false.
-/

namespace CheckWorkflowFailures

/-- One workflow run record as consumed by `checkWorkflowStatus`:
`run_started_at` is the start timestamp in milliseconds since the epoch
(`none` models a null/absent `run_started_at`), `conclusion` is the
nullable conclusion string (for example "success", "failure",
"cancelled", or `none` for a null conclusion). -/
structure RunRecord where
  run_started_at : Option ℚ
  conclusion : Option String
deriving DecidableEq, Repr

/-- A JS number that is either NaN or an exact rational value.  Float
rounding is outside the model; NaN must be explicit because
`parseFloat` of a non-numeric string is NaN and comparisons with NaN
are always false. -/
inductive JsNum where
  | nan : JsNum
  | num : ℚ → JsNum
deriving DecidableEq, Repr

/-- The JS comparison `x <= n` where `n` may be NaN: any comparison
against NaN evaluates to false. -/
def jsLeNum (x : ℚ) : JsNum → Bool
  | JsNum.nan => false
  | JsNum.num q => decide (x ≤ q)

/-- `const timeToLookBackMs = daysToLookBack * 24 * 60 * 60 * 1000`
from `checkWorkflowStatus` (NaN propagates through multiplication). -/
def timeToLookBackMs : JsNum → JsNum
  | JsNum.nan => JsNum.nan
  | JsNum.num d => JsNum.num (d * 24 * 60 * 60 * 1000)

/-- The predicate of the `recentWorkflowRuns` filter in
`checkWorkflowStatus`:
`run.run_started_at && Date.now() - new Date(run.run_started_at).getTime() <= timeToLookBackMs`.
A null `run_started_at` is falsy, so the record is dropped without any
age comparison. -/
def isRecentRun (now : ℚ) (ms : JsNum) (run : RunRecord) : Bool :=
  match run.run_started_at with
  | none => false
  | some startedAt => jsLeNum (now - startedAt) ms

/-- `const recentWorkflowRuns = workflowRuns.filter(...)` from
`checkWorkflowStatus`. -/
def recentWorkflowRuns (workflowRuns : List RunRecord) (daysToLookBack : JsNum)
    (now : ℚ) : List RunRecord :=
  workflowRuns.filter (isRecentRun now (timeToLookBackMs daysToLookBack))

/-- The verdict string computed by the body of `checkWorkflowStatus`
after the fetch: empty list gives "false"; an empty in-window set takes
the outside-window branch on `workflowRuns[0]` (here `first`, since the
list is non-empty in that branch) when `checkOutsideWindow` holds and
gives "false" otherwise; a non-empty in-window set gives "false"
exactly when some in-window run concluded "success". -/
def workflowVerdict (workflowRuns : List RunRecord) (daysToLookBack : JsNum)
    (checkOutsideWindow : Bool) (now : ℚ) : String :=
  match workflowRuns with
  | [] => "false"
  | first :: rest =>
    if (recentWorkflowRuns (first :: rest) daysToLookBack now).length = 0 then
      if checkOutsideWindow then
        if first.conclusion = some "success" then "false" else "true"
      else "false"
    else if (recentWorkflowRuns (first :: rest) daysToLookBack now).any
        (fun run => decide (run.conclusion = some "success")) then "false"
    else "true"

/-- Observable outcome of one invocation of the action: either
`setOutput name value` was called and the process reports success, or
`setFailed message` was called and no output is published. -/
inductive ActionResult where
  | output (name : String) (value : String) : ActionResult
  | failed (message : String) : ActionResult
deriving DecidableEq, Repr

/-- The whole `checkWorkflowStatus` function: the try/catch boundary.
The only throwing operation in the try block is the fetch of the
workflow runs, modelled as an `Except`; any error is caught and turned
into `setFailed` with the fixed message, and a successful fetch always
ends in `setOutput` of the computed verdict. -/
def checkWorkflowStatus (fetchResult : Except String (List RunRecord))
    (daysToLookBack : JsNum) (checkOutsideWindow : Bool) (now : ℚ) : ActionResult :=
  match fetchResult with
  | Except.error _ => ActionResult.failed "Failed to check the workflow status"
  | Except.ok workflowRuns =>
      ActionResult.output "has_previous_failure"
        (workflowVerdict workflowRuns daysToLookBack checkOutsideWindow now)

/-- Model of the JS `String.prototype.toLowerCase` (ASCII letters are
mapped to lower case; the claims only exercise ASCII inputs). -/
def toLowerStr (s : String) : String :=
  String.mk (s.data.map Char.toLower)

/-- Model of the JS `String.prototype.trim`: drop leading and trailing
whitespace characters. -/
def trimStr (s : String) : String :=
  String.mk
    (((s.data.dropWhile Char.isWhitespace).reverse.dropWhile Char.isWhitespace).reverse)

/-- Parsing of the `check_outside_window` input in `getParsedInput`:
`getInput(...).toLowerCase().trim() || 'true'`, then compared with
`=== 'true'`. -/
def parseCheckOutsideWindow (raw : String) : Bool :=
  if trimStr (toLowerStr raw) = "" then true
  else trimStr (toLowerStr raw) == "true"

/-- Numeric value of a list of decimal digit characters. -/
def digitsVal (digits : List Char) : ℕ :=
  digits.foldl (fun acc c => 10 * acc + (c.toNat - 48)) 0

/-- Model of the JS builtin `parseFloat` on plain decimal notation
(optional leading whitespace, optional sign, integer digits, optional
fractional digits, trailing garbage ignored); exponent notation is not
modelled.  When no digit can be read the result is NaN. -/
def parseFloatJs (raw : String) : JsNum :=
  let chars := raw.data.dropWhile Char.isWhitespace
  let sign : ℚ := match chars with
    | '-' :: _ => -1
    | _ => 1
  let body := match chars with
    | '-' :: rest => rest
    | '+' :: rest => rest
    | _ => chars
  let intPart := body.takeWhile Char.isDigit
  let afterInt := body.dropWhile Char.isDigit
  let fracPart := match afterInt with
    | '.' :: rest => rest.takeWhile Char.isDigit
    | _ => []
  if intPart = [] ∧ fracPart = [] then JsNum.nan
  else JsNum.num (sign * ((digitsVal intPart : ℚ) +
    (digitsVal fracPart : ℚ) / (10 : ℚ) ^ fracPart.length))

/-- Parsing of the `days_to_look_back` input in `getParsedInput`:
`getInput(...) || '7'`, then `parseFloat`. -/
def parseDaysToLookBack (raw : String) : JsNum :=
  parseFloatJs (if raw = "" then "7" else raw)

/-- A record is kept by the window filter (with a numeric lookback) iff
it is in the list, has a timestamp, and its age is at most the lookback
in milliseconds. -/
theorem mem_recentWorkflowRuns {r : RunRecord} {runs : List RunRecord} {d now : ℚ} :
    r ∈ recentWorkflowRuns runs (JsNum.num d) now ↔
      r ∈ runs ∧ ∃ t, r.run_started_at = some t ∧ now - t ≤ d * 24 * 60 * 60 * 1000 := by
  unfold recentWorkflowRuns timeToLookBackMs
  rw [List.mem_filter]
  constructor
  · rintro ⟨hmem, hp⟩
    refine ⟨hmem, ?_⟩
    unfold isRecentRun at hp
    cases hst : r.run_started_at with
    | none => rw [hst] at hp; simp at hp
    | some t =>
      rw [hst] at hp
      exact ⟨t, rfl, by simpa [jsLeNum] using hp⟩
  · rintro ⟨hmem, t, hst, hle⟩
    refine ⟨hmem, ?_⟩
    unfold isRecentRun
    rw [hst]
    unfold jsLeNum
    exact decide_eq_true hle

/-- With a NaN lookback every age comparison is false, so the window
filter keeps nothing. -/
theorem recentWorkflowRuns_nan (runs : List RunRecord) (now : ℚ) :
    recentWorkflowRuns runs JsNum.nan now = [] := by
  unfold recentWorkflowRuns timeToLookBackMs
  rw [List.filter_eq_nil_iff]
  intro r _
  unfold isRecentRun
  cases r.run_started_at <;> simp [jsLeNum]

/-- Unfolding of `workflowVerdict` on a non-empty record list. -/
theorem workflowVerdict_cons (first : RunRecord) (rest : List RunRecord)
    (d : JsNum) (cow : Bool) (now : ℚ) :
    workflowVerdict (first :: rest) d cow now =
      if (recentWorkflowRuns (first :: rest) d now).length = 0 then
        if cow then
          if first.conclusion = some "success" then "false" else "true"
        else "false"
      else if (recentWorkflowRuns (first :: rest) d now).any
          (fun run => decide (run.conclusion = some "success")) then "false"
      else "true" := rfl

/-- C1: whenever the within-window set is non-empty, the verdict is
"false" exactly when some within-window record concluded "success", and
"true" exactly when every within-window record has a non-success
conclusion (null, "cancelled", "failure", and so on); a single
in-window success clears the failure verdict no matter how many
in-window records failed. -/
theorem withinWindow_verdict
    (workflowRuns : List RunRecord) (d : JsNum) (cow : Bool) (now : ℚ)
    (h : recentWorkflowRuns workflowRuns d now ≠ []) :
    (workflowVerdict workflowRuns d cow now = "false" ↔
      ∃ r ∈ recentWorkflowRuns workflowRuns d now, r.conclusion = some "success") ∧
    (workflowVerdict workflowRuns d cow now = "true" ↔
      ∀ r ∈ recentWorkflowRuns workflowRuns d now, r.conclusion ≠ some "success") := by
  match workflowRuns with
  | [] => exact absurd rfl h
  | first :: rest =>
    have hlen : ¬ (recentWorkflowRuns (first :: rest) d now).length = 0 :=
      fun h0 => h (List.length_eq_zero.mp h0)
    rw [workflowVerdict_cons, if_neg hlen]
    by_cases hs : ∃ r ∈ recentWorkflowRuns (first :: rest) d now, r.conclusion = some "success"
    · have hany : ((recentWorkflowRuns (first :: rest) d now).any
          (fun run => decide (run.conclusion = some "success"))) = true := by
        rw [List.any_eq_true]
        obtain ⟨r, hr, hc⟩ := hs
        exact ⟨r, hr, decide_eq_true hc⟩
      rw [if_pos hany]
      refine ⟨iff_of_true rfl hs, iff_of_false (by decide) ?_⟩
      obtain ⟨r, hr, hc⟩ := hs
      exact fun hall => hall r hr hc
    · have hany : ¬ ((recentWorkflowRuns (first :: rest) d now).any
          (fun run => decide (run.conclusion = some "success"))) = true := by
        rw [List.any_eq_true]
        intro ⟨r, hr, hc⟩
        exact hs ⟨r, hr, of_decide_eq_true hc⟩
      rw [if_neg hany]
      refine ⟨iff_of_false (by decide) hs, iff_of_true rfl ?_⟩
      intro r hr hc
      exact hs ⟨r, hr, hc⟩

/-- Concrete instance of the C1 theorem: one in-window success gives
verdict "false". -/
theorem withinWindow_verdict_witness :
    workflowVerdict [⟨some 0, some "success"⟩] (JsNum.num 7) true 0 = "false" := by
  have hmem : (⟨some 0, some "success"⟩ : RunRecord) ∈
      recentWorkflowRuns [⟨some 0, some "success"⟩] (JsNum.num 7) 0 :=
    mem_recentWorkflowRuns.mpr ⟨List.mem_singleton.mpr rfl, 0, rfl, by norm_num⟩
  exact (withinWindow_verdict [⟨some 0, some "success"⟩] (JsNum.num 7) true 0
    (List.ne_nil_of_mem hmem)).1.mpr ⟨⟨some 0, some "success"⟩, hmem, rfl⟩

/-- C2: with an empty within-window set and checkOutsideWindow true,
the verdict is "true" exactly when the first record's conclusion is
anything other than "success" (null included), and "false" exactly when
it is "success" — the first record's age or missing timestamp plays no
role in this branch. -/
theorem outsideWindow_enabled_verdict
    (first : RunRecord) (rest : List RunRecord) (d : JsNum) (now : ℚ)
    (h : recentWorkflowRuns (first :: rest) d now = []) :
    (workflowVerdict (first :: rest) d true now = "true" ↔
      first.conclusion ≠ some "success") ∧
    (workflowVerdict (first :: rest) d true now = "false" ↔
      first.conclusion = some "success") := by
  have hlen0 : (recentWorkflowRuns (first :: rest) d now).length = 0 := by rw [h]; rfl
  rw [workflowVerdict_cons, if_pos hlen0, if_pos rfl]
  by_cases hc : first.conclusion = some "success"
  · rw [if_pos hc]
    exact ⟨iff_of_false (by decide) (fun hne => hne hc), iff_of_true rfl hc⟩
  · rw [if_neg hc]
    exact ⟨iff_of_true rfl hc, iff_of_false (by decide) hc⟩

/-- Concrete instance of the C2 theorem: a lone stale/failing record
with the fallback enabled gives verdict "true". -/
theorem outsideWindow_enabled_verdict_witness :
    workflowVerdict [⟨none, none⟩] (JsNum.num 7) true 0 = "true" :=
  (outsideWindow_enabled_verdict ⟨none, none⟩ [] (JsNum.num 7) 0 rfl).1.mpr
    (by decide)

/-- C3: with an empty within-window set and checkOutsideWindow false,
the verdict is "false" unconditionally, whatever the records conclude. -/
theorem outsideWindow_disabled_verdict
    (workflowRuns : List RunRecord) (d : JsNum) (now : ℚ)
    (hne : workflowRuns ≠ [])
    (h : recentWorkflowRuns workflowRuns d now = []) :
    workflowVerdict workflowRuns d false now = "false" := by
  match workflowRuns with
  | [] => exact absurd rfl hne
  | first :: rest =>
    have hlen0 : (recentWorkflowRuns (first :: rest) d now).length = 0 := by rw [h]; rfl
    rw [workflowVerdict_cons, if_pos hlen0,
      if_neg (by decide : ¬ (false : Bool) = true)]

/-- Concrete instance of the C3 theorem: a lone failing record outside
the window with the fallback disabled still gives verdict "false". -/
theorem outsideWindow_disabled_verdict_witness :
    workflowVerdict [⟨none, some "failure"⟩] (JsNum.num 7) false 0 = "false" :=
  outsideWindow_disabled_verdict [⟨none, some "failure"⟩] (JsNum.num 7) 0
    (List.cons_ne_nil _ _) rfl

/-- C4: the window filter keeps exactly the records with a present
timestamp whose age is at most the lookback in milliseconds (inclusive
boundary: age equal to the lookback is kept, lookback plus any positive
epsilon is dropped), never keeps a record without a timestamp, and
preserves the relative order of the input (the result is a sublist). -/
theorem recentWorkflowRuns_spec (workflowRuns : List RunRecord) (d now : ℚ) :
    (∀ r, r ∈ recentWorkflowRuns workflowRuns (JsNum.num d) now ↔
      (r ∈ workflowRuns ∧
        ∃ t, r.run_started_at = some t ∧ now - t ≤ d * 24 * 60 * 60 * 1000)) ∧
    (∀ r t, r ∈ workflowRuns → r.run_started_at = some t →
      now - t = d * 24 * 60 * 60 * 1000 →
      r ∈ recentWorkflowRuns workflowRuns (JsNum.num d) now) ∧
    (∀ r t ε, 0 < ε → r.run_started_at = some t →
      now - t = d * 24 * 60 * 60 * 1000 + ε →
      r ∉ recentWorkflowRuns workflowRuns (JsNum.num d) now) ∧
    (∀ r, r.run_started_at = none →
      r ∉ recentWorkflowRuns workflowRuns (JsNum.num d) now) ∧
    List.Sublist (recentWorkflowRuns workflowRuns (JsNum.num d) now) workflowRuns := by
  refine ⟨fun r => mem_recentWorkflowRuns, ?_, ?_, ?_, List.filter_sublist _⟩
  · intro r t hmem hst hage
    exact mem_recentWorkflowRuns.mpr ⟨hmem, t, hst, le_of_eq hage⟩
  · intro r t ε hε hst hage hmem
    obtain ⟨-, s, hs, hle⟩ := mem_recentWorkflowRuns.mp hmem
    rw [hst] at hs
    cases Option.some_injective _ hs
    rw [hage] at hle
    linarith
  · intro r hnone hmem
    obtain ⟨-, s, hs, -⟩ := mem_recentWorkflowRuns.mp hmem
    rw [hnone] at hs
    exact Option.noConfusion hs

/-- Concrete instance of the C4 theorem: a record aged exactly the
lookback (age 7 days, lookback 7 days) is kept by the filter. -/
theorem recentWorkflowRuns_spec_witness :
    (⟨some 0, some "failure"⟩ : RunRecord) ∈
      recentWorkflowRuns [⟨some 0, some "failure"⟩] (JsNum.num 7) 604800000 :=
  (recentWorkflowRuns_spec [⟨some 0, some "failure"⟩] 7 604800000).2.1
    ⟨some 0, some "failure"⟩ 0 (List.mem_singleton.mpr rfl) rfl (by norm_num)

/-- C5: an empty record list yields the verdict "false" for every
lookback, every checkOutsideWindow flag and every reference time. -/
theorem emptyRuns_verdict (d : JsNum) (cow : Bool) (now : ℚ) :
    workflowVerdict [] d cow now = "false" := rfl

/-- C6: when the days_to_look_back string parses to NaN, the window
filter keeps nothing, so the evaluator takes the outside-window
fallback path: "false" on an empty list, otherwise the fallback
decision on the first record (its conclusion when checkOutsideWindow is
set, "false" otherwise) — and in particular evaluation still returns a
verdict rather than failing. -/
theorem nanLookback_fallback (raw : String)
    (h : parseDaysToLookBack raw = JsNum.nan)
    (workflowRuns : List RunRecord) (cow : Bool) (now : ℚ) :
    recentWorkflowRuns workflowRuns (parseDaysToLookBack raw) now = [] ∧
    workflowVerdict workflowRuns (parseDaysToLookBack raw) cow now =
      (match workflowRuns with
       | [] => "false"
       | first :: _ =>
         if cow then
           if first.conclusion = some "success" then "false" else "true"
         else "false") := by
  rw [h]
  refine ⟨recentWorkflowRuns_nan _ _, ?_⟩
  match workflowRuns with
  | [] => rfl
  | first :: rest =>
    have hlen0 : (recentWorkflowRuns (first :: rest) JsNum.nan now).length = 0 := by
      rw [recentWorkflowRuns_nan]; rfl
    rw [workflowVerdict_cons, if_pos hlen0]

/-- Concrete instance of the C6 theorem: with the unparseable lookback
"abc" the within-window set of a one-record list is empty. -/
theorem nanLookback_fallback_witness :
    recentWorkflowRuns [⟨some 0, some "failure"⟩] (parseDaysToLookBack "abc") 0 = [] :=
  (nanLookback_fallback "abc" rfl [⟨some 0, some "failure"⟩] true 0).1

/-- C7: parsing of check_outside_window is case-insensitive and
whitespace-trimmed with default true: "TRUE", "True", "true", "" and a
whitespace-only string all parse to true, while "false", "FALSE" and
"False" parse to false. -/
theorem parseCheckOutsideWindow_values :
    parseCheckOutsideWindow "TRUE" = true ∧
    parseCheckOutsideWindow "True" = true ∧
    parseCheckOutsideWindow "true" = true ∧
    parseCheckOutsideWindow "" = true ∧
    parseCheckOutsideWindow "  " = true ∧
    parseCheckOutsideWindow "false" = false ∧
    parseCheckOutsideWindow "FALSE" = false ∧
    parseCheckOutsideWindow "False" = false := by
  decide

/-- C8: any fetch error is caught at the outer boundary and turned into
the process-level failure with the fixed message (no output published),
while a successful fetch always publishes the has_previous_failure
output and reports process-level success, whatever the verdict is. -/
theorem checkWorkflowStatus_boundary :
    (∀ (e : String) (d : JsNum) (cow : Bool) (now : ℚ),
      checkWorkflowStatus (Except.error e) d cow now =
        ActionResult.failed "Failed to check the workflow status") ∧
    (∀ (runs : List RunRecord) (d : JsNum) (cow : Bool) (now : ℚ),
      checkWorkflowStatus (Except.ok runs) d cow now =
        ActionResult.output "has_previous_failure" (workflowVerdict runs d cow now)) :=
  ⟨fun _ _ _ _ => rfl, fun _ _ _ _ => rfl⟩

/-- C9: the parsed check_outside_window flag is true exactly when the
lowercased, trimmed input is "true" or empty (the empty case takes the
default); any other normalized value, such as "yes", "1" or "on",
parses to false. -/
theorem parseCheckOutsideWindow_characterization :
    (∀ raw, parseCheckOutsideWindow raw = true ↔
      (trimStr (toLowerStr raw) = "true" ∨ trimStr (toLowerStr raw) = "")) ∧
    parseCheckOutsideWindow "yes" = false ∧
    parseCheckOutsideWindow "1" = false ∧
    parseCheckOutsideWindow "on" = false := by
  refine ⟨fun raw => ?_, by decide, by decide, by decide⟩
  unfold parseCheckOutsideWindow
  by_cases h : trimStr (toLowerStr raw) = ""
  · simp [h]
  · simp [h, beq_iff_eq]

/-- Concrete instance of the C9 characterization: "tRue" normalizes to
"true" and parses to true. -/
theorem parseCheckOutsideWindow_characterization_witness :
    parseCheckOutsideWindow "tRue" = true :=
  (parseCheckOutsideWindow_characterization.1 "tRue").mpr (Or.inl (by decide))

/-- C10: a record whose timestamp lies in the future of the reference
time (negative age) is always within the window for any non-negative
lookback, since a negative age is at most any non-negative lookback in
milliseconds. -/
theorem futureRun_withinWindow (r : RunRecord) (workflowRuns : List RunRecord)
    (d now t : ℚ) (hd : 0 ≤ d) (hr : r ∈ workflowRuns)
    (ht : r.run_started_at = some t) (hfuture : now < t) :
    r ∈ recentWorkflowRuns workflowRuns (JsNum.num d) now := by
  refine mem_recentWorkflowRuns.mpr ⟨hr, t, ht, ?_⟩
  have hms : (0 : ℚ) ≤ d * 24 * 60 * 60 * 1000 := by positivity
  linarith

/-- Concrete instance of the C10 theorem: a record started 1 ms in the
future is kept even with a zero-length lookback window. -/
theorem futureRun_withinWindow_witness :
    (⟨some 1, none⟩ : RunRecord) ∈
      recentWorkflowRuns [⟨some 1, none⟩] (JsNum.num 0) 0 :=
  futureRun_withinWindow ⟨some 1, none⟩ [⟨some 1, none⟩] 0 0 1 le_rfl
    (List.mem_singleton.mpr rfl) rfl (by norm_num)

end CheckWorkflowFailures
